import Mathlib

/-!
Verification of the ticket-client helpers in `zendesk.py`.

The module defines four functions over an HTTP transport:
`read_open_zendesk_tickets`, `search_tickets`, `reply_to_senders_ticket`
and `get_zendesk_ticket_messages`, plus the header builder `auth`.

The embedding models each function as a pure function of the transport's
answer (an HTTP `Response`, or a raised transport exception), returning an
`Output` record that carries the HTTP requests issued, the lines printed,
and the Python-level result: either a returned value (`PyVal`) or an
uncaught Python exception (`PyErr`).
-/

namespace Zendesk

/-- JSON values, as returned by `response.json()`. Objects keep their
fields as an ordered association list. -/
inductive Json where
  | null : Json
  | bool : Bool → Json
  | num : Int → Json
  | str : String → Json
  | arr : List Json → Json
  | obj : List (String × Json) → Json
deriving Repr

/-- Python exceptions that the embedded code can raise. -/
inductive PyErr where
  | keyError : String → PyErr
  | typeError : PyErr
  | attributeError : PyErr
  | nameError : String → PyErr
deriving Repr, DecidableEq

/-- Python values returned by the embedded functions: `None`, a string,
or a JSON-shaped value (list/dict). -/
inductive PyVal where
  | none : PyVal
  | str : String → PyVal
  | json : Json → PyVal
deriving Repr

/-- Module-level configuration imported from `settings`:
`ZENDESK_EMAIL`, `ZENDESK_TOKEN` (bound to `api_key`), `ZENDESK_DOMAIN`. -/
structure Settings where
  email : String
  api_key : String
  domain : String

/-- An HTTP response as seen by the client: the status code, the parsed
JSON body (`response.json()`), and the raw text (`response.text`). -/
structure Response where
  status_code : Nat
  bodyJson : Json
  text : String

/-- HTTP method of a request. -/
inductive Method where
  | get : Method
  | post : Method
deriving Repr, DecidableEq

/-- An HTTP request as built by the client before sending. -/
structure HttpRequest where
  method : Method
  url : String
  headers : List (String × String) := []
  params : List (String × String) := []
  jsonBody : List (String × String) := []
  basicAuth : Option (String × String) := Option.none

/-- The observable outcome of one call: HTTP requests actually issued,
lines printed to standard output, and the Python result — a returned
value, or an uncaught exception. -/
structure Output where
  httpCalls : List HttpRequest
  printed : List String
  result : Except PyErr PyVal

/-- Model of `s.encode('utf-8')` on a single character: standard UTF-8 bytes. -/
def utf8EncodeChar (c : Char) : List Nat :=
  let n := c.toNat
  if n < 0x80 then [n]
  else if n < 0x800 then
    [0xC0 ||| (n >>> 6), 0x80 ||| (n &&& 0x3F)]
  else if n < 0x10000 then
    [0xE0 ||| (n >>> 12), 0x80 ||| ((n >>> 6) &&& 0x3F), 0x80 ||| (n &&& 0x3F)]
  else
    [0xF0 ||| (n >>> 18), 0x80 ||| ((n >>> 12) &&& 0x3F),
     0x80 ||| ((n >>> 6) &&& 0x3F), 0x80 ||| (n &&& 0x3F)]

/-- Model of `s.encode('utf-8')` for a whole string. -/
def utf8Encode (s : String) : List Nat :=
  s.data.flatMap utf8EncodeChar

/-- The 64-character base64 alphabet. -/
def base64Alphabet : List Char :=
  "ABCDEFGHIJKLMNOPQRSTUVWXYZabcdefghijklmnopqrstuvwxyz0123456789+/".data

/-- Character for one 6-bit group. -/
def b64Char (n : Nat) : Char :=
  base64Alphabet.getD n 'A'

/-- Standard base64 encoding of a byte list with `=` padding, as done by
`base64.b64encode`. -/
def b64encodeBytes : List Nat → List Char
  | [] => []
  | [b1] =>
      [b64Char (b1 >>> 2), b64Char ((b1 &&& 0x3) <<< 4), '=', '=']
  | [b1, b2] =>
      [b64Char (b1 >>> 2), b64Char (((b1 &&& 0x3) <<< 4) ||| (b2 >>> 4)),
       b64Char ((b2 &&& 0xF) <<< 2), '=']
  | b1 :: b2 :: b3 :: rest =>
      b64Char (b1 >>> 2) :: b64Char (((b1 &&& 0x3) <<< 4) ||| (b2 >>> 4)) ::
      b64Char (((b2 &&& 0xF) <<< 2) ||| (b3 >>> 6)) :: b64Char (b3 &&& 0x3F) ::
      b64encodeBytes rest

/-- `base64.b64encode(...).decode('utf-8')`: the base64 text of a byte list. -/
def b64encode (bytes : List Nat) : String :=
  ⟨b64encodeBytes bytes⟩

/-- Function `auth()`: returns the string
`"Basic " + b64encode(f"{ZENDESK_EMAIL}/token:{api_key}".encode('utf-8'))`. -/
def auth (st : Settings) : String :=
  let auth_string := b64encode (utf8Encode (st.email ++ "/token:" ++ st.api_key))
  "Basic " ++ auth_string

/-- Python subscript `j[key]` on a parsed JSON value: a `KeyError` when the
object lacks the key, a `TypeError` when `j` is not a dict. -/
def Json.subscript : Json → String → Except PyErr Json
  | .obj fields, key =>
      match fields.lookup key with
      | Option.some v => .ok v
      | Option.none => .error (.keyError key)
  | _, _ => .error .typeError

/-- Python slice `v[:1]`: the first element of a list (or first character
of a string); a `TypeError` on non-sliceable values. -/
def pySliceOne : Json → Except PyErr Json
  | .arr xs => .ok (.arr (xs.take 1))
  | .str s => .ok (.str (s.take 1))
  | _ => .error .typeError

/-- Python `j.get(key, [])` on a parsed JSON value: the value when the key
is present, the empty list when absent, an `AttributeError` when `j` is
not a dict. -/
def Json.getDefaultEmptyList : Json → String → Except PyErr Json
  | .obj fields, key =>
      match fields.lookup key with
      | Option.some v => .ok v
      | Option.none => .ok (.arr [])
  | _, _ => .error .attributeError

/-- The GET request built by `read_open_zendesk_tickets`. -/
def read_open_request (st : Settings) : HttpRequest :=
  { method := .get
    url := "https://" ++ st.domain ++ ".zendesk.com/api/v2/search.json"
    headers := [("Authorization", auth st), ("Content-Type", "application/json")]
    params := [("query", "status:open type:ticket")] }

/-- Function `read_open_zendesk_tickets()`: issues the search GET; on status 200
returns `response.json()['results'][:1]`, otherwise prints
`response.text` and returns `f"Error fetching tickets: {response.status_code}"`. -/
def read_open_zendesk_tickets (st : Settings) (response : Response) : Output :=
  let call := read_open_request st
  if response.status_code = 200 then
    match response.bodyJson.subscript "results" with
    | .ok v =>
        match pySliceOne v with
        | .ok r => { httpCalls := [call], printed := [], result := .ok (.json r) }
        | .error e => { httpCalls := [call], printed := [], result := .error e }
    | .error e => { httpCalls := [call], printed := [], result := .error e }
  else
    { httpCalls := [call]
      printed := [response.text]
      result := .ok (.str ("Error fetching tickets: " ++ toString response.status_code)) }

/-- The query string built by `search_tickets`:
`f'status:closed type:ticket description:"{keywords}"'`. -/
def search_query (keywords : String) : String :=
  "status:closed type:ticket description:\"" ++ keywords ++ "\""

/-- The GET request built by `search_tickets`. -/
def search_request (st : Settings) (keywords : String) : HttpRequest :=
  { method := .get
    url := "https://" ++ st.domain ++ ".zendesk.com/api/v2/search.json"
    headers := [("Authorization", auth st), ("Content-Type", "application/json")]
    params := [("query", search_query keywords)] }

/-- Function `search_tickets(keywords)`: issues the search GET; on status 200
returns `response.json()['results']` in full, otherwise returns
`f"Error searching tickets: {response.status_code}"`. -/
def search_tickets (st : Settings) (keywords : String) (response : Response) : Output :=
  let call := search_request st keywords
  if response.status_code = 200 then
    match response.bodyJson.subscript "results" with
    | .ok v => { httpCalls := [call], printed := [], result := .ok (.json v) }
    | .error e => { httpCalls := [call], printed := [], result := .error e }
  else
    { httpCalls := [call]
      printed := []
      result := .ok (.str ("Error searching tickets: " ++ toString response.status_code)) }

/-- Function `reply_to_senders_ticket(ticket_id, message)`: builds the Senders URL,
bearer headers and the JSON payload, but the POST line
`response = requests.post(url, headers=headers, json=data)` is commented
out in the source, so no HTTP call is issued. The function prints the
message, then evaluates `response.status_code` — `response` is an
undefined name, so the call raises `NameError` unconditionally. -/
def reply_to_senders_ticket (st : Settings) (ticket_id message : String) : Output :=
  let _url := "https://api.senders.com/v1/tickets/" ++ ticket_id ++ "/reply"
  let _headers := [("Authorization", "Bearer " ++ st.api_key),
                   ("Content-Type", "application/json")]
  let _data := [("message", message)]
  { httpCalls := []
    printed := [message]
    result := .error (.nameError "response") }

/-- A transport-level failure raised by `requests` (network error, or an
HTTP error status turned into an exception by `raise_for_status`),
carrying its display text `str(e)`. -/
structure RequestException where
  msg : String

/-- The GET request built by `get_zendesk_ticket_messages`, authenticated
with the tuple `(f'{ZENDESK_EMAIL}/token', api_key)`. -/
def get_messages_request (st : Settings) (ticket_id : String) : HttpRequest :=
  { method := .get
    url := "https://" ++ st.domain ++ ".zendesk.com/api/v2/tickets/" ++
           ticket_id ++ "/comments.json"
    basicAuth := Option.some (st.email ++ "/token", st.api_key) }

/-- Model of `response.raise_for_status()`: raises a `RequestException` exactly when
the status code is a 4xx client error or 5xx server error. -/
def raise_for_status (response : Response) : Except RequestException Response :=
  if 400 ≤ response.status_code ∧ response.status_code < 600 then
    .error ⟨"HTTPError " ++ toString response.status_code⟩
  else
    .ok response

/-- Function `get_zendesk_ticket_messages(ticket_id)`: issues the comments GET; the
transport either raises (`.error`) or yields a `Response`. Inside the
`try`, `raise_for_status()` may raise; both `RequestException`s are
caught, logged with `print`, and turn into a returned `None`. On a
non-raising response the function returns
`response.json().get('comments', [])`. -/
def get_zendesk_ticket_messages (st : Settings) (ticket_id : String)
    (transport : Except RequestException Response) : Output :=
  let call := get_messages_request st ticket_id
  match transport with
  | .error e =>
      { httpCalls := [call]
        printed := ["Error fetching ticket messages: " ++ e.msg]
        result := .ok .none }
  | .ok response =>
      match raise_for_status response with
      | .error e =>
          { httpCalls := [call]
            printed := ["Error fetching ticket messages: " ++ e.msg]
            result := .ok .none }
      | .ok response =>
          match response.bodyJson.getDefaultEmptyList "comments" with
          | .ok comments =>
              { httpCalls := [call], printed := [], result := .ok (.json comments) }
          | .error e =>
              { httpCalls := [call], printed := [], result := .error e }

/-- Predicate: `sub` occurs as a contiguous substring of `s`. -/
def strContains (s sub : String) : Prop :=
  ∃ pre post, s = pre ++ sub ++ post

/-- Helper: every branch of `read_open_zendesk_tickets` issues exactly the
one search GET. -/
theorem read_open_httpCalls (st : Settings) (r : Response) :
    (read_open_zendesk_tickets st r).httpCalls = [read_open_request st] := by
  unfold read_open_zendesk_tickets
  split
  · split
    · split <;> rfl
    · rfl
  · rfl

/-- Helper: every branch of `search_tickets` issues exactly the one
search GET. -/
theorem search_httpCalls (st : Settings) (kw : String) (r : Response) :
    (search_tickets st kw r).httpCalls = [search_request st kw] := by
  unfold search_tickets
  split
  · split <;> rfl
  · rfl

end Zendesk

namespace Zendesk

/-- C1: for every HTTP response with status code not equal to 200, both
`read_open_zendesk_tickets` and `search_tickets` return a string that
contains the decimal status code, and neither returns any ticket data
(no JSON value is returned). -/
theorem error_status_yields_string_with_code (st : Settings) (response : Response)
    (h : response.status_code ≠ 200) :
    (∃ s, (read_open_zendesk_tickets st response).result = .ok (.str s) ∧
        strContains s (toString response.status_code)) ∧
    (∀ kw : String, ∃ s, (search_tickets st kw response).result = .ok (.str s) ∧
        strContains s (toString response.status_code)) ∧
    (∀ j, (read_open_zendesk_tickets st response).result ≠ .ok (.json j)) ∧
    (∀ kw j, (search_tickets st kw response).result ≠ .ok (.json j)) := by
  have hr : (read_open_zendesk_tickets st response).result =
      .ok (.str ("Error fetching tickets: " ++ toString response.status_code)) := by
    simp [read_open_zendesk_tickets, h]
  have hs : ∀ kw : String, (search_tickets st kw response).result =
      .ok (.str ("Error searching tickets: " ++ toString response.status_code)) := by
    intro kw
    simp [search_tickets, h]
  refine ⟨⟨_, hr, "Error fetching tickets: ", "", by simp⟩,
    fun kw => ⟨_, hs kw, "Error searching tickets: ", "", by simp⟩, ?_, ?_⟩
  · intro j hj
    rw [hr] at hj
    simp at hj
  · intro kw j hj
    rw [hs kw] at hj
    simp at hj

/-- Witness for C1 at a concrete 404 response. -/
theorem error_status_yields_string_with_code_witness :
    (∃ s, (read_open_zendesk_tickets ⟨"a@b.c", "k", "d"⟩
        ⟨404, .obj [], "not found"⟩).result = .ok (.str s) ∧
        strContains s (toString (404 : Nat))) ∧
    (∀ kw : String, ∃ s, (search_tickets ⟨"a@b.c", "k", "d"⟩ kw
        ⟨404, .obj [], "not found"⟩).result = .ok (.str s) ∧
        strContains s (toString (404 : Nat))) ∧
    (∀ j, (read_open_zendesk_tickets ⟨"a@b.c", "k", "d"⟩
        ⟨404, .obj [], "not found"⟩).result ≠ .ok (.json j)) ∧
    (∀ kw j, (search_tickets ⟨"a@b.c", "k", "d"⟩ kw
        ⟨404, .obj [], "not found"⟩).result ≠ .ok (.json j)) :=
  error_status_yields_string_with_code ⟨"a@b.c", "k", "d"⟩
    ⟨404, .obj [], "not found"⟩ (by decide)

/-- C2: on an HTTP 200 response whose JSON body has a `results` list,
`read_open_zendesk_tickets` returns exactly the first element of that
list (the `[:1]` truncation), hence at most one ticket record, even when
the list has more than one element. -/
theorem fetch_open_truncates_to_one (st : Settings) (response : Response)
    (xs : List Json) (h200 : response.status_code = 200)
    (hres : response.bodyJson.subscript "results" = .ok (.arr xs)) :
    (read_open_zendesk_tickets st response).result = .ok (.json (.arr (xs.take 1))) ∧
    (xs.take 1).length ≤ 1 ∧
    ∀ x rest, xs = x :: rest → xs.take 1 = [x] := by
  refine ⟨?_, ?_, ?_⟩
  · simp [read_open_zendesk_tickets, h200, hres, pySliceOne]
  · simp
  · rintro x rest rfl
    rfl

/-- Witness for C2 at a concrete 200 response carrying two results. -/
theorem fetch_open_truncates_to_one_witness :
    (read_open_zendesk_tickets ⟨"a@b.c", "k", "d"⟩
        ⟨200, .obj [("results", .arr [.num 1, .num 2])], "ok"⟩).result =
      .ok (.json (.arr ([Json.num 1, Json.num 2].take 1))) ∧
    ([Json.num 1, Json.num 2].take 1).length ≤ 1 ∧
    ∀ x rest, [Json.num 1, Json.num 2] = x :: rest →
      [Json.num 1, Json.num 2].take 1 = [x] :=
  fetch_open_truncates_to_one ⟨"a@b.c", "k", "d"⟩
    ⟨200, .obj [("results", .arr [.num 1, .num 2])], "ok"⟩
    [.num 1, .num 2] rfl rfl

/-- C3: on a transport-level failure — a raised `requests` exception, or a
4xx/5xx status turned into one by `raise_for_status` —
`get_zendesk_ticket_messages` logs the error, returns `None`, and never
propagates any exception to the caller. -/
theorem get_messages_catches_transport_errors (st : Settings) (ticket_id : String)
    (e : RequestException) (response : Response)
    (hlo : 400 ≤ response.status_code) (hhi : response.status_code < 600) :
    ((get_zendesk_ticket_messages st ticket_id (.error e)).result = .ok .none ∧
     (get_zendesk_ticket_messages st ticket_id (.error e)).printed =
       ["Error fetching ticket messages: " ++ e.msg] ∧
     ∀ err, (get_zendesk_ticket_messages st ticket_id (.error e)).result ≠ .error err) ∧
    ((get_zendesk_ticket_messages st ticket_id (.ok response)).result = .ok .none ∧
     (get_zendesk_ticket_messages st ticket_id (.ok response)).printed ≠ [] ∧
     ∀ err, (get_zendesk_ticket_messages st ticket_id (.ok response)).result ≠ .error err) := by
  have hraise : raise_for_status response =
      .error ⟨"HTTPError " ++ toString response.status_code⟩ := by
    simp [raise_for_status, hlo, hhi]
  refine ⟨⟨rfl, rfl, ?_⟩, ⟨?_, ?_, ?_⟩⟩
  · intro err hcontra
    simp [get_zendesk_ticket_messages] at hcontra
  · simp [get_zendesk_ticket_messages, hraise]
  · simp [get_zendesk_ticket_messages, hraise]
  · intro err hcontra
    simp [get_zendesk_ticket_messages, hraise] at hcontra

/-- Witness for C3 at a concrete connection error and a concrete 503
response. -/
theorem get_messages_catches_transport_errors_witness :
    ((get_zendesk_ticket_messages ⟨"a@b.c", "k", "d"⟩ "42"
        (.error ⟨"ConnectionError"⟩)).result = .ok .none ∧
     (get_zendesk_ticket_messages ⟨"a@b.c", "k", "d"⟩ "42"
        (.error ⟨"ConnectionError"⟩)).printed =
       ["Error fetching ticket messages: " ++ RequestException.msg ⟨"ConnectionError"⟩] ∧
     ∀ err, (get_zendesk_ticket_messages ⟨"a@b.c", "k", "d"⟩ "42"
        (.error ⟨"ConnectionError"⟩)).result ≠ .error err) ∧
    ((get_zendesk_ticket_messages ⟨"a@b.c", "k", "d"⟩ "42"
        (.ok ⟨503, .obj [], "unavailable"⟩)).result = .ok .none ∧
     (get_zendesk_ticket_messages ⟨"a@b.c", "k", "d"⟩ "42"
        (.ok ⟨503, .obj [], "unavailable"⟩)).printed ≠ [] ∧
     ∀ err, (get_zendesk_ticket_messages ⟨"a@b.c", "k", "d"⟩ "42"
        (.ok ⟨503, .obj [], "unavailable"⟩)).result ≠ .error err) :=
  get_messages_catches_transport_errors ⟨"a@b.c", "k", "d"⟩ "42"
    ⟨"ConnectionError"⟩ ⟨503, .obj [], "unavailable"⟩ (by decide) (by decide)

/-- C4: for every ticket id and message, `reply_to_senders_ticket` fails
with a `NameError` on the undefined name `response`, and issues no HTTP
call before failing (the POST is commented out). -/
theorem reply_raises_name_error (st : Settings) (ticket_id message : String) :
    (reply_to_senders_ticket st ticket_id message).result =
      .error (.nameError "response") ∧
    (reply_to_senders_ticket st ticket_id message).httpCalls = [] :=
  ⟨rfl, rfl⟩

/-- C5: on an HTTP 200 response whose JSON body is an object,
`get_zendesk_ticket_messages` returns the empty list when the `comments`
key is absent, and the full list under `comments`, unchanged and in
order, when it is present. -/
theorem get_messages_comments_default_and_full (st : Settings) (ticket_id : String)
    (response : Response) (fields : List (String × Json))
    (h200 : response.status_code = 200)
    (hobj : response.bodyJson = .obj fields) :
    (fields.lookup "comments" = Option.none →
      (get_zendesk_ticket_messages st ticket_id (.ok response)).result =
        .ok (.json (.arr []))) ∧
    (∀ cs, fields.lookup "comments" = Option.some (.arr cs) →
      (get_zendesk_ticket_messages st ticket_id (.ok response)).result =
        .ok (.json (.arr cs))) := by
  have hraise : raise_for_status response = .ok response := by
    simp [raise_for_status, h200]
  constructor
  · intro habs
    simp [get_zendesk_ticket_messages, hraise, hobj, Json.getDefaultEmptyList, habs]
  · intro cs hpres
    simp [get_zendesk_ticket_messages, hraise, hobj, Json.getDefaultEmptyList, hpres]

/-- Witness for C5 at a concrete 200 response with a two-comment list. -/
theorem get_messages_comments_default_and_full_witness :
    ([(("comments" : String), Json.arr [.str "a", .str "b"])].lookup "comments" =
        Option.none →
      (get_zendesk_ticket_messages ⟨"a@b.c", "k", "d"⟩ "7"
        (.ok ⟨200, .obj [("comments", .arr [.str "a", .str "b"])], "ok"⟩)).result =
        .ok (.json (.arr []))) ∧
    (∀ cs, [(("comments" : String), Json.arr [.str "a", .str "b"])].lookup "comments" =
        Option.some (.arr cs) →
      (get_zendesk_ticket_messages ⟨"a@b.c", "k", "d"⟩ "7"
        (.ok ⟨200, .obj [("comments", .arr [.str "a", .str "b"])], "ok"⟩)).result =
        .ok (.json (.arr cs))) :=
  get_messages_comments_default_and_full ⟨"a@b.c", "k", "d"⟩ "7"
    ⟨200, .obj [("comments", .arr [.str "a", .str "b"])], "ok"⟩
    [("comments", .arr [.str "a", .str "b"])] rfl rfl

/-- C6: on an HTTP 200 response whose JSON body has a `results` list,
`search_tickets` returns that full list, without truncation. -/
theorem search_returns_full_results (st : Settings) (kw : String)
    (response : Response) (xs : List Json)
    (h200 : response.status_code = 200)
    (hres : response.bodyJson.subscript "results" = .ok (.arr xs)) :
    (search_tickets st kw response).result = .ok (.json (.arr xs)) := by
  simp [search_tickets, h200, hres]

/-- Witness for C6 at a concrete 200 response carrying three results. -/
theorem search_returns_full_results_witness :
    (search_tickets ⟨"a@b.c", "k", "d"⟩ "password"
      ⟨200, .obj [("results", .arr [.num 1, .num 2, .num 3])], "ok"⟩).result =
      .ok (.json (.arr [.num 1, .num 2, .num 3])) :=
  search_returns_full_results ⟨"a@b.c", "k", "d"⟩ "password"
    ⟨200, .obj [("results", .arr [.num 1, .num 2, .num 3])], "ok"⟩
    [.num 1, .num 2, .num 3] rfl rfl

/-- C7: for every keyword, `search_tickets` sends exactly the query
`status:closed type:ticket description:"<keyword>"`, with the keyword
embedded verbatim between a fixed prefix and a fixed suffix that do not
depend on the keyword — no sanitization. -/
theorem search_query_embeds_keyword_verbatim (st : Settings) (kw : String) :
    (search_request st kw).params = [("query", search_query kw)] ∧
    search_query kw = "status:closed type:ticket description:\"" ++ kw ++ "\"" ∧
    ∃ pre post : String, (∀ kw2 : String, search_query kw2 = pre ++ kw2 ++ post) ∧
      search_query kw = pre ++ kw ++ post :=
  ⟨rfl, rfl, "status:closed type:ticket description:\"", "\"",
    fun _ => rfl, rfl⟩

/-- C8: the Authorization header carried by every request that
`read_open_zendesk_tickets` and `search_tickets` issue is the value of
`auth()`, namely `"Basic "` followed by the base64 encoding of the UTF-8
bytes of `"{email}/token:{token}"`. -/
theorem auth_header_is_basic_b64 (st : Settings) (kw : String) (response : Response) :
    (∀ call ∈ (read_open_zendesk_tickets st response).httpCalls,
        call.headers.lookup "Authorization" = Option.some (auth st)) ∧
    (∀ call ∈ (search_tickets st kw response).httpCalls,
        call.headers.lookup "Authorization" = Option.some (auth st)) ∧
    auth st = "Basic " ++ b64encode (utf8Encode (st.email ++ "/token:" ++ st.api_key)) := by
  refine ⟨?_, ?_, rfl⟩
  · intro call hcall
    rw [read_open_httpCalls] at hcall
    simp at hcall
    subst hcall
    rfl
  · intro call hcall
    rw [search_httpCalls] at hcall
    simp at hcall
    subst hcall
    rfl

/-- C10: on an HTTP 200 response whose `results` list is empty,
`read_open_zendesk_tickets` returns the empty list — not an error string
and not an exception (the `[:1]` slice is total on the empty list). -/
theorem fetch_open_empty_results_ok (st : Settings) (response : Response)
    (h200 : response.status_code = 200)
    (hres : response.bodyJson.subscript "results" = .ok (.arr [])) :
    (read_open_zendesk_tickets st response).result = .ok (.json (.arr [])) ∧
    (∀ s, (read_open_zendesk_tickets st response).result ≠ .ok (.str s)) ∧
    (∀ e, (read_open_zendesk_tickets st response).result ≠ .error e) := by
  have hr : (read_open_zendesk_tickets st response).result = .ok (.json (.arr [])) := by
    simp [read_open_zendesk_tickets, h200, hres, pySliceOne]
  refine ⟨hr, ?_, ?_⟩
  · intro s hcontra
    rw [hr] at hcontra
    simp at hcontra
  · intro e hcontra
    rw [hr] at hcontra
    simp at hcontra

/-- Witness for C10 at a concrete 200 response with an empty results list. -/
theorem fetch_open_empty_results_ok_witness :
    (read_open_zendesk_tickets ⟨"a@b.c", "k", "d"⟩
        ⟨200, .obj [("results", .arr [])], "ok"⟩).result = .ok (.json (.arr [])) ∧
    (∀ s, (read_open_zendesk_tickets ⟨"a@b.c", "k", "d"⟩
        ⟨200, .obj [("results", .arr [])], "ok"⟩).result ≠ .ok (.str s)) ∧
    (∀ e, (read_open_zendesk_tickets ⟨"a@b.c", "k", "d"⟩
        ⟨200, .obj [("results", .arr [])], "ok"⟩).result ≠ .error e) :=
  fetch_open_empty_results_ok ⟨"a@b.c", "k", "d"⟩
    ⟨200, .obj [("results", .arr [])], "ok"⟩ rfl rfl

/-- C9: for every ticket id and message, `reply_to_senders_ticket` issues
no HTTP request at all, and its only observable effect before failing is
printing the message to standard output. -/
theorem reply_no_http_prints_message (st : Settings) (ticket_id message : String) :
    (reply_to_senders_ticket st ticket_id message).httpCalls = [] ∧
    (reply_to_senders_ticket st ticket_id message).printed = [message] :=
  ⟨rfl, rfl⟩

end Zendesk
